import Mathlib

/-!
Verification of the library-circulation design against the repository's
source (`src/backend/seed.cjs`, a MongoDB seeding script) together with the
components the design document describes but the source does not contain
(Inventory Ledger, Transaction State Machine, Circulation Service).  The
schemas and the seed data are translated from the source; the engine
operations are modelled from the specification and marked as such.
-/

/-- Error taxonomy of the design document (spec section 7). -/
inductive Err where
  | NotFound
  | Conflict
  | OutOfStock
  | OverlapViolation
  | InvalidTransition
  | InvariantViolation
  | Busy
deriving DecidableEq

/-- A value held by a stored `password` field.  `bcrypt` is an external
library; it is modelled abstractly: `bcryptHashed rounds salt plaintext`
stands for the opaque digest `bcrypt.hash(plaintext, salt)` where the salt
was produced by `bcrypt.genSalt(rounds)`.  The plaintext argument records
what was hashed; the model treats the digest as non-invertible data. -/
inductive PValue where
  | plain (s : String)
  | bcryptHashed (rounds salt : Nat) (plaintext : String)
deriving DecidableEq

/-- `hashPassword` from `seed.cjs` (lines 203-206):
`bcrypt.hash(password, await bcrypt.genSalt(10))`.  Each call generates a
fresh salt; freshness is modelled by the call index `saltIdx`. -/
def hashPassword (saltIdx : Nat) (password : String) : PValue :=
  .bcryptHashed 10 saltIdx password

/-- `BookCategorySchema` (seed.cjs lines 55-68): unique `categoryName`,
list of book references (defaults to empty; the seed never sets it). -/
structure BookCategory where
  categoryName : String
  books : List Nat := []
deriving DecidableEq

/-- One entry of the `usersData` array in `seedDatabase`
(seed.cjs lines 246-249); `password` here is the plaintext literal. -/
structure SeedUser where
  userType : String
  userFullName : String
  email : String
  password : String
  mobileNumber : String
  admissionId : Option String := none
  employeeId : Option String := none
  isAdmin : Bool := false
deriving DecidableEq

/-- `UserSchema` (seed.cjs lines 116-195), restricted to the fields the
seed populates plus the schema defaults (`points`, transaction lists,
`isAdmin`).  Document ids are list positions. -/
structure StoredUser where
  userType : String
  userFullName : String
  admissionId : Option String := none
  employeeId : Option String := none
  mobileNumber : String
  email : String
  password : PValue
  points : Int := 0
  activeTransactions : List Nat := []
  prevTransactions : List Nat := []
  isAdmin : Bool := false
deriving DecidableEq

/-- The user-construction step of the seeding loop (seed.cjs lines
252-259): spread the seed datum and replace `password` with its hash. -/
def mkStoredUser (saltIdx : Nat) (d : SeedUser) : StoredUser :=
  { userType := d.userType
    userFullName := d.userFullName
    admissionId := d.admissionId
    employeeId := d.employeeId
    mobileNumber := d.mobileNumber
    email := d.email
    password := hashPassword saltIdx d.password
    isAdmin := d.isAdmin }

/-- `BookSchema` (seed.cjs lines 8-53).  Note the schema stores
`bookStatus` as its own field with default `"Available"`; it is not
derived from `bookCountAvailable`.  Category references are the results
of `categoryMap` lookups, hence `Option Nat`. -/
structure Book where
  bookName : String
  alternateTitle : String := ""
  author : String
  language : String := ""
  publisher : String := ""
  bookCountAvailable : Int
  bookStatus : String := "Available"
  categories : List (Option Nat) := []
  transactions : List Nat := []
deriving DecidableEq

/-- `BookTransactionSchema` (seed.cjs lines 70-114); `returnDate` is
optional, `transactionStatus` defaults to `"Active"`.  The id references
are `categoryMap`-style lookups, hence `Option Nat`. -/
structure BookTransaction where
  bookId : Option Nat
  borrowerId : Option Nat
  bookName : String
  borrowerName : String
  transactionType : String
  fromDate : String
  toDate : String
  returnDate : Option String := none
  transactionStatus : String := "Active"
deriving DecidableEq

/-- The four collections the seeding script touches. -/
structure Db where
  books : List Book
  bookcategories : List BookCategory
  booktransactions : List BookTransaction
  users : List StoredUser
deriving DecidableEq

def emptyDb : Db := { books := [], bookcategories := [], booktransactions := [], users := [] }

/-- The category rows inserted by `BookCategory.insertMany`
(seed.cjs lines 228-237). -/
def seedCats : List BookCategory :=
  [ { categoryName := "Fiction" }
  , { categoryName := "Science Fiction" }
  , { categoryName := "Mystery" }
  , { categoryName := "Thriller" }
  , { categoryName := "Non-Fiction" }
  , { categoryName := "Biography" }
  , { categoryName := "History" }
  , { categoryName := "Technology" } ]

/-- `categoryMap` (seed.cjs lines 240-243): name to inserted id
(ids are insertion positions; names are distinct, so the reduce is a
first-index lookup). -/
def categoryMap (n : String) : Option Nat :=
  seedCats.findIdx? (fun c => c.categoryName == n)

/-- The `usersData` array (seed.cjs lines 246-249). -/
def usersData : List SeedUser :=
  [ { userType := "Member", userFullName := "John Doe", email := "john.doe@example.com"
    , password := "password123", mobileNumber := "1234567890", admissionId := some "JD123" }
  , { userType := "Member", userFullName := "Jane Smith", email := "jane.smith@example.com"
    , password := "password456", mobileNumber := "9876543210", admissionId := some "JS456" }
  , { userType := "Admin", userFullName := "Admin User", email := "admin@example.com"
    , password := "adminPassword", mobileNumber := "1122334455", isAdmin := true
    , employeeId := some "AD001" } ]

/-- The user documents built by the seeding loop (seed.cjs lines 251-259):
one `hashPassword` call, hence one fresh salt, per user. -/
def storedUsers : List StoredUser :=
  usersData.enum.map (fun p => mkStoredUser p.1 p.2)

/-- `userMap` (seed.cjs lines 263-266). -/
def userMap (n : String) : Option Nat :=
  storedUsers.findIdx? (fun u => u.userFullName == n)

/-- The book rows inserted by `Book.insertMany` (seed.cjs lines 269-300). -/
def seedBooks : List Book :=
  [ { bookName := "The Lord of the Rings", author := "J.R.R. Tolkien"
    , bookCountAvailable := 5, categories := [categoryMap ("Fiction")] }
  , { bookName := "Dune", author := "Frank Herbert"
    , bookCountAvailable := 3, categories := [categoryMap ("Science Fiction")] }
  , { bookName := "The Girl with the Dragon Tattoo", author := "Stieg Larsson"
    , bookCountAvailable := 2, categories := [categoryMap ("Mystery"), categoryMap ("Thriller")] }
  , { bookName := "Sapiens: A Brief History of Humankind", author := "Yuval Noah Harari"
    , bookCountAvailable := 4, categories := [categoryMap ("Non-Fiction"), categoryMap ("History")] }
  , { bookName := "Steve Jobs", author := "Walter Isaacson"
    , bookCountAvailable := 1, categories := [categoryMap ("Biography"), categoryMap ("Technology")] } ]

/-- `bookMap` (seed.cjs lines 303-306). -/
def bookMap (n : String) : Option Nat :=
  seedBooks.findIdx? (fun b => b.bookName == n)

/-- First transaction inserted by the seed (seed.cjs lines 310-318):
an Issue left with the schema defaults `transactionStatus = "Active"`,
no `returnDate`. -/
def seedTx1 : BookTransaction :=
  { bookId := bookMap ("The Lord of the Rings"), borrowerId := userMap ("John Doe")
  , bookName := "The Lord of the Rings", borrowerName := "John Doe"
  , transactionType := "Issue", fromDate := "2024-01-15", toDate := "2024-02-15" }

/-- Second transaction (seed.cjs lines 319-327): an Active Reservation. -/
def seedTx2 : BookTransaction :=
  { bookId := bookMap ("Dune"), borrowerId := userMap ("Jane Smith")
  , bookName := "Dune", borrowerName := "Jane Smith"
  , transactionType := "Reservation", fromDate := "2024-02-20", toDate := "2024-03-20" }

/-- Third transaction (seed.cjs lines 328-338): a Completed Issue with a
`returnDate`. -/
def seedTx3 : BookTransaction :=
  { bookId := bookMap ("Sapiens: A Brief History of Humankind")
  , borrowerId := userMap ("John Doe")
  , bookName := "Sapiens: A Brief History of Humankind", borrowerName := "John Doe"
  , transactionType := "Issue", fromDate := "2023-11-10", toDate := "2023-12-10"
  , returnDate := some "2023-12-05", transactionStatus := "Completed" }

/-- The `BookTransaction.insertMany` payload (seed.cjs lines 309-339). -/
def seedTransactions : List BookTransaction := [seedTx1, seedTx2, seedTx3]

/-- The database contents a successful seeding run leaves behind. -/
def seededDb : Db :=
  { books := seedBooks
  , bookcategories := seedCats
  , booktransactions := seedTransactions
  , users := storedUsers }

/-- Modelled from the spec: write-time uniqueness enforcement of the
Entity Store (spec section 4.1).  The unique fields are the ones declared
`unique: true` in `BookCategorySchema` (seed.cjs line 58): a duplicate
`categoryName` fails with `Conflict`. -/
def insertCategory (cs : List BookCategory) (c : BookCategory) :
    Except Err (List BookCategory) :=
  if cs.any (fun d => d.categoryName == c.categoryName) then .error .Conflict
  else .ok (cs ++ [c])

/-- Modelled from the spec: write-time uniqueness enforcement of the
Entity Store (spec section 4.1).  The unique fields are the ones declared
`unique: true` in `UserSchema` (seed.cjs lines 125 and 163): a duplicate
`userFullName` or a duplicate `email` fails with `Conflict`. -/
def insertUser (us : List StoredUser) (u : StoredUser) :
    Except Err (List StoredUser) :=
  if us.any (fun v => v.userFullName == u.userFullName || v.email == u.email) then
    .error .Conflict
  else .ok (us ++ [u])

/-- `BookSchema` declares no unique field (bookName is only indexed), so a
book insert always succeeds as a plain append. -/
def insertBooksStep (db : Db) : Db := { db with books := db.books ++ seedBooks }

/-- `BookTransactionSchema` declares no unique field; the transaction
insert of the seed (seed.cjs lines 309-339) is a plain append and touches
no other collection. -/
def insertTxStep (db : Db) : Db :=
  { db with booktransactions := db.booktransactions ++ seedTransactions }

/-- The insert half of `seedDatabase` (seed.cjs lines 227-340), in source
order: categories, users, books, transactions.  A uniqueness conflict is
thrown by the store and caught by the script's try/catch; the error value
carries the database state at the failure (MongoDB's ordered partial
insert inside one `insertMany` is not tracked; no statement below depends
on the post-conflict contents). -/
def insertPhase (db : Db) : Except Db Db :=
  match seedCats.foldlM insertCategory db.bookcategories with
  | .error _ => .error db
  | .ok cats =>
    let db1 : Db := { db with bookcategories := cats }
    match storedUsers.foldlM insertUser db1.users with
    | .error _ => .error db1
    | .ok us =>
      let db2 : Db := { db1 with users := us }
      .ok (insertTxStep (insertBooksStep db2))

/-- Outcome MongoDB reports for one `dropCollection` call; code 26 is
NamespaceNotFound (the collection does not exist). -/
inductive DropResult where
  | ok
  | err (code : Int)
deriving DecidableEq

/-- The four drop outcomes of one seeding run (seed.cjs lines 221-224). -/
structure DropPlan where
  booksDrop : DropResult
  categoriesDrop : DropResult
  transactionsDrop : DropResult
  usersDrop : DropResult
deriving DecidableEq

/-- `dropCollection(name).catch(e => { if (e.code != 26) throw e; })`
(seed.cjs lines 221-224): success empties the collection, code 26 is
swallowed leaving it as it was, any other code rethrows. -/
def dropColl (r : DropResult) (coll : List α) : Except Unit (List α) :=
  match r with
  | .ok => .ok []
  | .err c => if c = 26 then .ok coll else .error ()

/-- The drop half of `seedDatabase` (seed.cjs lines 220-225), in source
order: books, bookcategories, booktransactions, users.  A rethrown drop
error aborts with the database state reached so far. -/
def dropPhase (p : DropPlan) (db : Db) : Except Db Db :=
  match dropColl p.booksDrop db.books with
  | .error _ => .error db
  | .ok bs =>
    let db1 : Db := { db with books := bs }
    match dropColl p.categoriesDrop db1.bookcategories with
    | .error _ => .error db1
    | .ok cs =>
      let db2 : Db := { db1 with bookcategories := cs }
      match dropColl p.transactionsDrop db2.booktransactions with
      | .error _ => .error db2
      | .ok ts =>
        let db3 : Db := { db2 with booktransactions := ts }
        match dropColl p.usersDrop db3.users with
        | .error _ => .error db3
        | .ok us => .ok { db3 with users := us }

/-- One run of `seedDatabase` (seed.cjs lines 202-348): drop the four
collections, then insert.  The try/catch turns any thrown error into a
normal exit, so the result is the final database state plus a flag saying
whether seeding completed. -/
def runSeed (p : DropPlan) (db : Db) : Db × Bool :=
  match dropPhase p db with
  | .error d => (d, false)
  | .ok d =>
    match insertPhase d with
    | .error d1 => (d1, false)
    | .ok d1 => (d1, true)

/-- A drop outcome the script tolerates: success, or code 26 — which
MongoDB only reports when the collection does not exist, i.e. is empty. -/
def dropTolerated (r : DropResult) (coll : List α) : Prop :=
  r = .ok ∨ (r = .err 26 ∧ coll = [])

/-- A drop outcome the script rethrows: an error whose code is not 26. -/
def dropRethrown (r : DropResult) : Prop :=
  ∃ c, r = .err c ∧ c ≠ 26

/-- Modelled from the spec: the status derivation of the Inventory Ledger
(spec section 4.2) — `Available` iff the available count is positive,
else `Unavailable`; a pure function of the count.  Stated from the spec's
words so it can be compared with the stored `bookStatus` field of
`BookSchema`. -/
def derivedStatus (n : Int) : String :=
  if 0 < n then "Available" else "Unavailable"

/-- A book document built exactly as the seed builds one (name, author and
count supplied; every other field takes its `BookSchema` default, in
particular `bookStatus = "Available"`). -/
def schemaDefaultBook (name author : String) (count : Int) : Book :=
  { bookName := name, author := author, bookCountAvailable := count }

/-- The snapshot check of the denormalized name fields: every seeded
transaction's `bookName` / `borrowerName` equals the `bookName` /
`userFullName` of the document its `bookId` / `borrowerId` references
(references resolved by insertion position, as `bookMap` / `userMap`
assign them). -/
def snapshotsConsistent : Bool :=
  seedTransactions.all (fun tx =>
    (match tx.bookId with
     | some i =>
       match seedBooks[i]? with
       | some b => b.bookName == tx.bookName
       | none => false
     | none => false)
    &&
    (match tx.borrowerId with
     | some i =>
       match storedUsers[i]? with
       | some u => u.userFullName == tx.borrowerName
       | none => false
     | none => false))

/-- Modelled from the spec: a Book as the Inventory Ledger sees it (spec
sections 3, 4.2) — the source schema stores only `bookCountAvailable`;
the `totalCopies` bound is the spec's implicit field. -/
structure LedgerBook where
  bookName : String
  totalCopies : Int
  availableCopies : Int
deriving DecidableEq

/-- Modelled from the spec: a BookTransaction as the Transaction State
Machine sees it (spec sections 3, 4.3); ids are list positions. -/
structure LedgerTx where
  bookId : Nat
  borrowerId : Nat
  bookName : String
  borrowerName : String
  transactionType : String
  fromDate : String
  toDate : String
  returnDate : Option String
  transactionStatus : String
deriving DecidableEq

/-- Modelled from the spec: the per-user data the Circulation Service
maintains (spec sections 3, 4.4). -/
structure LedgerUser where
  userFullName : String
  points : Int
  activeTransactions : List Nat
  prevTransactions : List Nat
deriving DecidableEq

/-- Modelled from the spec: the state the Circulation Service operates on;
entity ids are list positions, a fresh transaction id is the current
length of the transaction list. -/
structure EngineState where
  books : List LedgerBook
  transactions : List LedgerTx
  users : List LedgerUser
deriving DecidableEq

/-- Lexicographic order on character lists by code point. -/
def charListLe : List Char → List Char → Bool
  | [], _ => true
  | _ :: _, [] => false
  | a :: as, b :: bs => if a = b then charListLe as bs else decide (a.toNat < b.toNat)

/-- Date comparison: dates are the seed's ISO `YYYY-MM-DD` strings, whose
lexicographic string order is chronological. -/
def dateLe (a b : String) : Bool := charListLe a.data b.data

/-- Two `[fromDate, toDate]` windows overlap. -/
def windowsOverlap (f1 t1 f2 t2 : String) : Bool :=
  dateLe f1 t2 && dateLe f2 t1

/-- Number of Active transactions for a book whose window overlaps the
requested one (spec section 4.3, overlap check). -/
def activeOverlapCount (st : EngineState) (bid : Nat) (f t : String) : Nat :=
  (st.transactions.filter (fun tx =>
    tx.bookId == bid && tx.transactionStatus == "Active"
      && windowsOverlap tx.fromDate tx.toDate f t)).length

/-- Modelled from the spec: `issueBook` (spec section 4.4) — resolve book
and user (`NotFound` on a missing id), fail with `OutOfStock` when no copy
is available (spec section 8 gives this failure precedence), check the
overlap invariant, then atomically reserve a copy, create an Active Issue
transaction and append it to the user's active list. -/
def issueBook (st : EngineState) (bid uid : Nat) (f t : String) :
    Except Err EngineState :=
  match st.books[bid]?, st.users[uid]? with
  | some b, some u =>
    if b.availableCopies = 0 then .error .OutOfStock
    else if b.totalCopies < (activeOverlapCount st bid f t : Int) + 1 then
      .error .OverlapViolation
    else
      .ok { books := st.books.set bid { b with availableCopies := b.availableCopies - 1 }
          , transactions := st.transactions ++
              [{ bookId := bid, borrowerId := uid, bookName := b.bookName
               , borrowerName := u.userFullName, transactionType := "Issue"
               , fromDate := f, toDate := t, returnDate := none
               , transactionStatus := "Active" }]
          , users := st.users.set uid
              { u with activeTransactions := u.activeTransactions ++ [st.transactions.length] } }
  | _, _ => .error .NotFound

/-- Modelled from the spec: `reserveBook` (spec section 4.4) — same
overlap check as `issueBook`, creates an Active Reservation transaction
without touching `availableCopies`. -/
def reserveBook (st : EngineState) (bid uid : Nat) (f t : String) :
    Except Err EngineState :=
  match st.books[bid]?, st.users[uid]? with
  | some b, some u =>
    if b.totalCopies < (activeOverlapCount st bid f t : Int) + 1 then
      .error .OverlapViolation
    else
      .ok { books := st.books
          , transactions := st.transactions ++
              [{ bookId := bid, borrowerId := uid, bookName := b.bookName
               , borrowerName := u.userFullName, transactionType := "Reservation"
               , fromDate := f, toDate := t, returnDate := none
               , transactionStatus := "Active" }]
          , users := st.users.set uid
              { u with activeTransactions := u.activeTransactions ++ [st.transactions.length] } }
  | _, _ => .error .NotFound

/-- Modelled from the spec: `returnBook` (spec sections 4.3, 4.4) — valid
only from the stored status `Active` (`Overdue` is derived, not stored);
sets status `Completed` and the `returnDate`, moves the transaction from
the user's active list to history and, for an Issue, releases the copy;
a release that would exceed `totalCopies` signals `InvariantViolation`
and, all-or-nothing, changes nothing. -/
def returnBook (st : EngineState) (txId : Nat) (rDate : String) :
    Except Err EngineState :=
  match st.transactions[txId]? with
  | none => .error .NotFound
  | some tx =>
    if tx.transactionStatus ≠ "Active" then .error .InvalidTransition
    else
      match st.users[tx.borrowerId]? with
      | none => .error .NotFound
      | some u =>
        if tx.transactionType = "Issue" then
          match st.books[tx.bookId]? with
          | none => .error .NotFound
          | some b =>
            if b.totalCopies < b.availableCopies + 1 then .error .InvariantViolation
            else
              .ok { books := st.books.set tx.bookId
                      { b with availableCopies := b.availableCopies + 1 }
                  , transactions := st.transactions.set txId
                      { tx with transactionStatus := "Completed", returnDate := some rDate }
                  , users := st.users.set tx.borrowerId
                      { u with activeTransactions := u.activeTransactions.filter (fun i => i != txId)
                             , prevTransactions := u.prevTransactions ++ [txId] } }
        else
          .ok { books := st.books
              , transactions := st.transactions.set txId
                  { tx with transactionStatus := "Completed", returnDate := some rDate }
              , users := st.users.set tx.borrowerId
                  { u with activeTransactions := u.activeTransactions.filter (fun i => i != txId)
                         , prevTransactions := u.prevTransactions ++ [txId] } }

/-- Modelled from the spec: `cancelReservation` (spec sections 4.3, 4.4)
— valid only from `Active`; sets status `Cancelled`, removes the
transaction from the user's active list; no inventory effect. -/
def cancelReservation (st : EngineState) (txId : Nat) : Except Err EngineState :=
  match st.transactions[txId]? with
  | none => .error .NotFound
  | some tx =>
    if tx.transactionStatus ≠ "Active" then .error .InvalidTransition
    else
      match st.users[tx.borrowerId]? with
      | none => .error .NotFound
      | some u =>
        .ok { books := st.books
            , transactions := st.transactions.set txId
                { tx with transactionStatus := "Cancelled" }
            , users := st.users.set tx.borrowerId
                { u with activeTransactions := u.activeTransactions.filter (fun i => i != txId)
                       , prevTransactions := u.prevTransactions ++ [txId] } }

/-- One request to the Circulation Service. -/
inductive EngineOp where
  | issue (bid uid : Nat) (f t : String)
  | reserve (bid uid : Nat) (f t : String)
  | ret (txId : Nat) (d : String)
  | cancel (txId : Nat)

/-- Run one request; a failed request leaves the state unchanged (spec
section 4.4: side effects are all-or-nothing). -/
def applyOp (op : EngineOp) (st : EngineState) : EngineState :=
  match (match op with
         | .issue bid uid f t => issueBook st bid uid f t
         | .reserve bid uid f t => reserveBook st bid uid f t
         | .ret txId d => returnBook st txId d
         | .cancel txId => cancelReservation st txId) with
  | .ok st1 => st1
  | .error _ => st

/-- Run a sequence of requests. -/
def applyOps (ops : List EngineOp) (st : EngineState) : EngineState :=
  ops.foldl (fun s o => applyOp o s) st

/-- The inventory invariant (spec section 3):
`0 ≤ availableCopies ≤ totalCopies` for every book. -/
def booksInv (st : EngineState) : Prop :=
  ∀ b ∈ st.books, 0 ≤ b.availableCopies ∧ b.availableCopies ≤ b.totalCopies

/-- The transaction invariant (spec section 3):
`returnDate` set iff status is `Completed`. -/
def txInv (st : EngineState) : Prop :=
  ∀ tx ∈ st.transactions, (tx.returnDate ≠ none ↔ tx.transactionStatus = "Completed")

/-- A seeded book as the ledger sees it.  Modelled from the spec: the
schema has no `totalCopies` field, so the implicit bound is initialized
to the seeded available count. -/
def ledgerBookOfBook (b : Book) : LedgerBook :=
  { bookName := b.bookName, totalCopies := b.bookCountAvailable
  , availableCopies := b.bookCountAvailable }

/-- A seeded transaction as the engine sees it (id references resolved;
every seeded reference does resolve). -/
def ledgerTxOfTx (t : BookTransaction) : LedgerTx :=
  { bookId := t.bookId.getD 0, borrowerId := t.borrowerId.getD 0
  , bookName := t.bookName, borrowerName := t.borrowerName
  , transactionType := t.transactionType, fromDate := t.fromDate
  , toDate := t.toDate, returnDate := t.returnDate
  , transactionStatus := t.transactionStatus }

/-- A seeded user as the engine sees it. -/
def ledgerUserOfUser (u : StoredUser) : LedgerUser :=
  { userFullName := u.userFullName, points := u.points
  , activeTransactions := u.activeTransactions
  , prevTransactions := u.prevTransactions }

/-- The engine state a successful seeding run gives rise to. -/
def seedEngineState : EngineState :=
  { books := seededDb.books.map ledgerBookOfBook
  , transactions := seededDb.booktransactions.map ledgerTxOfTx
  , users := seededDb.users.map ledgerUserOfUser }

/-- The database state of a run on an empty store just before the
transaction insert: categories, users and books are already in place
(seed.cjs proceeds in that order), no transaction exists yet. -/
def seedRunBeforeTx : Db :=
  { books := seedBooks, bookcategories := seedCats
  , booktransactions := [], users := storedUsers }

/-- A minimal engine state with one registered user and one book that has
no available copy. -/
def noCopyState : EngineState :=
  { books := [{ bookName := "X", totalCopies := 1, availableCopies := 0 }]
  , transactions := []
  , users := [{ userFullName := "U", points := 0
              , activeTransactions := [], prevTransactions := [] }] }

/-- The state a successful issue of book 0 to user 0 over a free window
produces from the seeded state. -/
def issuedState : EngineState :=
  (issueBook seedEngineState 0 0 ("2024-03-01") ("2024-03-10")).toOption.getD seedEngineState

/-! ## Helper lemmas -/

/-- A book read by id is a member of the book list. -/
theorem mem_books_of_getElem {st : EngineState} {bid : Nat} {b : LedgerBook}
    (h : st.books[bid]? = some b) : b ∈ st.books :=
  List.getElem?_mem h

/-- The bounds `0 ≤ available ≤ total` for one book, out of `booksInv`. -/
theorem bounds_of_booksInv {st : EngineState} (h : booksInv st) {bid : Nat}
    {b : LedgerBook} (hb : st.books[bid]? = some b) :
    0 ≤ b.availableCopies ∧ b.availableCopies ≤ b.totalCopies :=
  h b (mem_books_of_getElem hb)

/-- Updating one book preserves `booksInv` over the list when the new book
is in bounds. -/
theorem booksInv_set {st : EngineState} (h : booksInv st) {bid : Nat}
    {b1 : LedgerBook} (hb1 : 0 ≤ b1.availableCopies ∧ b1.availableCopies ≤ b1.totalCopies)
    {txs : List LedgerTx} {us : List LedgerUser} :
    booksInv { books := st.books.set bid b1, transactions := txs, users := us } := by
  intro x hx
  rcases List.mem_or_eq_of_mem_set hx with hx1 | rfl
  · exact h x hx1
  · exact hb1

/-- A successful `issueBook` preserves the inventory invariant. -/
theorem booksInv_issueBook {st st1 : EngineState} {bid uid : Nat} {f t : String}
    (h : booksInv st) (he : issueBook st bid uid f t = .ok st1) : booksInv st1 := by
  unfold issueBook at he
  split at he
  · rename_i b u hb hu
    split at he
    · cases he
    · split at he
      · cases he
      · rename_i h0 hov
        injection he with he1
        subst he1
        have hbd := bounds_of_booksInv h hb
        exact booksInv_set h (by constructor <;> simp <;> omega)
  · cases he

/-- A successful `reserveBook` preserves the inventory invariant. -/
theorem booksInv_reserveBook {st st1 : EngineState} {bid uid : Nat} {f t : String}
    (h : booksInv st) (he : reserveBook st bid uid f t = .ok st1) : booksInv st1 := by
  unfold reserveBook at he
  split at he
  · split at he
    · cases he
    · injection he with he1
      subst he1
      exact fun x hx => h x hx
  · cases he

/-- A successful `returnBook` preserves the inventory invariant. -/
theorem booksInv_returnBook {st st1 : EngineState} {txId : Nat} {d : String}
    (h : booksInv st) (he : returnBook st txId d = .ok st1) : booksInv st1 := by
  unfold returnBook at he
  split at he
  · cases he
  · rename_i tx htx
    split at he
    · cases he
    · split at he
      · cases he
      · rename_i u hu
        split at he
        · split at he
          · cases he
          · split at he
            · cases he
            · rename_i hisu b hb hrel
              injection he with he1
              subst he1
              have hbd := bounds_of_booksInv h hb
              exact booksInv_set h (by constructor <;> simp <;> omega)
        · injection he with he1
          subst he1
          exact fun x hx => h x hx

/-- A successful `cancelReservation` preserves the inventory invariant. -/
theorem booksInv_cancelReservation {st st1 : EngineState} {txId : Nat}
    (h : booksInv st) (he : cancelReservation st txId = .ok st1) : booksInv st1 := by
  unfold cancelReservation at he
  split at he
  · cases he
  · split at he
    · cases he
    · split at he
      · cases he
      · injection he with he1
        subst he1
        exact fun x hx => h x hx

/-- Every single request preserves the inventory invariant. -/
theorem booksInv_applyOp (op : EngineOp) {st : EngineState} (h : booksInv st) :
    booksInv (applyOp op st) := by
  unfold applyOp
  cases op with
  | issue bid uid f t =>
    cases he : issueBook st bid uid f t with
    | ok st1 => simpa [he] using booksInv_issueBook h he
    | error e => simpa [he] using h
  | reserve bid uid f t =>
    cases he : reserveBook st bid uid f t with
    | ok st1 => simpa [he] using booksInv_reserveBook h he
    | error e => simpa [he] using h
  | ret txId d =>
    cases he : returnBook st txId d with
    | ok st1 => simpa [he] using booksInv_returnBook h he
    | error e => simpa [he] using h
  | cancel txId =>
    cases he : cancelReservation st txId with
    | ok st1 => simpa [he] using booksInv_cancelReservation h he
    | error e => simpa [he] using h

/-- Every request sequence preserves the inventory invariant. -/
theorem booksInv_applyOps (ops : List EngineOp) (st : EngineState)
    (h : booksInv st) : booksInv (applyOps ops st) := by
  induction ops generalizing st with
  | nil => exact h
  | cons o os ih => exact ih _ (booksInv_applyOp o h)

/-- Appending one well-formed transaction preserves the transaction
invariant over the list. -/
theorem txInv_append {st : EngineState} (h : txInv st) {tx1 : LedgerTx}
    (h1 : tx1.returnDate ≠ none ↔ tx1.transactionStatus = "Completed")
    {bs : List LedgerBook} {us : List LedgerUser} :
    txInv { books := bs, transactions := st.transactions ++ [tx1], users := us } := by
  intro x hx
  rcases List.mem_append.mp hx with hx1 | hx1
  · exact h x hx1
  · rw [List.mem_singleton] at hx1
    subst hx1
    exact h1

/-- Updating one transaction to a well-formed one preserves the
transaction invariant over the list. -/
theorem txInv_set {st : EngineState} (h : txInv st) {i : Nat} {tx1 : LedgerTx}
    (h1 : tx1.returnDate ≠ none ↔ tx1.transactionStatus = "Completed")
    {bs : List LedgerBook} {us : List LedgerUser} :
    txInv { books := bs, transactions := st.transactions.set i tx1, users := us } := by
  intro x hx
  rcases List.mem_or_eq_of_mem_set hx with hx1 | rfl
  · exact h x hx1
  · exact h1

/-- A successful `issueBook` preserves the transaction invariant: the
created transaction is Active with no return date. -/
theorem txInv_issueBook {st st1 : EngineState} {bid uid : Nat} {f t : String}
    (h : txInv st) (he : issueBook st bid uid f t = .ok st1) : txInv st1 := by
  unfold issueBook at he
  split at he
  · split at he
    · cases he
    · split at he
      · cases he
      · injection he with he1
        subst he1
        exact txInv_append h (by simp)
  · cases he

/-- A successful `reserveBook` preserves the transaction invariant. -/
theorem txInv_reserveBook {st st1 : EngineState} {bid uid : Nat} {f t : String}
    (h : txInv st) (he : reserveBook st bid uid f t = .ok st1) : txInv st1 := by
  unfold reserveBook at he
  split at he
  · split at he
    · cases he
    · injection he with he1
      subst he1
      exact txInv_append h (by simp)
  · cases he

/-- A successful `returnBook` preserves the transaction invariant: the
completed transaction gets both the `Completed` status and a return
date. -/
theorem txInv_returnBook {st st1 : EngineState} {txId : Nat} {d : String}
    (h : txInv st) (he : returnBook st txId d = .ok st1) : txInv st1 := by
  unfold returnBook at he
  split at he
  · cases he
  · split at he
    · cases he
    · split at he
      · cases he
      · split at he
        · split at he
          · cases he
          · split at he
            · cases he
            · injection he with he1
              subst he1
              exact txInv_set h (by simp)
        · injection he with he1
          subst he1
          exact txInv_set h (by simp)

/-- A successful `cancelReservation` preserves the transaction invariant:
the cancelled transaction was Active, hence had no return date, and keeps
none. -/
theorem txInv_cancelReservation {st st1 : EngineState} {txId : Nat}
    (h : txInv st) (he : cancelReservation st txId = .ok st1) : txInv st1 := by
  unfold cancelReservation at he
  split at he
  · cases he
  · rename_i tx htx
    split at he
    · cases he
    · rename_i hact
      split at he
      · cases he
      · injection he with he1
        subst he1
        have hiff := h tx (List.getElem?_mem htx)
        have hst : tx.transactionStatus = "Active" := not_not.mp hact
        have hnone : tx.returnDate = none := by
          by_contra hne
          have h2 := hiff.mp hne
          rw [hst] at h2
          exact absurd h2 (by decide)
        exact txInv_set h (by simp [hnone])

/-- Every single request preserves the transaction invariant. -/
theorem txInv_applyOp (op : EngineOp) {st : EngineState} (h : txInv st) :
    txInv (applyOp op st) := by
  unfold applyOp
  cases op with
  | issue bid uid f t =>
    cases he : issueBook st bid uid f t with
    | ok st1 => simpa [he] using txInv_issueBook h he
    | error e => simpa [he] using h
  | reserve bid uid f t =>
    cases he : reserveBook st bid uid f t with
    | ok st1 => simpa [he] using txInv_reserveBook h he
    | error e => simpa [he] using h
  | ret txId d =>
    cases he : returnBook st txId d with
    | ok st1 => simpa [he] using txInv_returnBook h he
    | error e => simpa [he] using h
  | cancel txId =>
    cases he : cancelReservation st txId with
    | ok st1 => simpa [he] using txInv_cancelReservation h he
    | error e => simpa [he] using h

/-- Every request sequence preserves the transaction invariant. -/
theorem txInv_applyOps (ops : List EngineOp) (st : EngineState)
    (h : txInv st) : txInv (applyOps ops st) := by
  induction ops generalizing st with
  | nil => exact h
  | cons o os ih => exact ih _ (txInv_applyOp o h)

/-- A successful `issueBook` decrements the issued book's available count
by exactly one. -/
theorem issueBook_decrements {st st1 : EngineState} {bid uid : Nat} {f t : String}
    {b : LedgerBook} (hb : st.books[bid]? = some b)
    (he : issueBook st bid uid f t = .ok st1) :
    st1.books[bid]? = some { b with availableCopies := b.availableCopies - 1 } := by
  unfold issueBook at he
  split at he
  · rename_i b2 u hb2 hu
    rw [hb] at hb2
    injection hb2 with hb2
    subst hb2
    split at he
    · cases he
    · split at he
      · cases he
      · injection he with he1
        subst he1
        have hlt : bid < st.books.length := (List.getElem?_eq_some_iff.mp hb).1
        simpa using List.getElem?_set_self hlt
  · cases he

/-- A successful `returnBook` of an Issue transaction increments the
referenced book's available count by exactly one. -/
theorem returnBook_increments {st st1 : EngineState} {txId : Nat} {d : String}
    {tx : LedgerTx} {b : LedgerBook}
    (htx : st.transactions[txId]? = some tx) (hty : tx.transactionType = "Issue")
    (hb : st.books[tx.bookId]? = some b)
    (he : returnBook st txId d = .ok st1) :
    st1.books[tx.bookId]? = some { b with availableCopies := b.availableCopies + 1 } := by
  unfold returnBook at he
  simp only [htx] at he
  by_cases hst : tx.transactionStatus = "Active"
  · rw [if_neg (not_not_intro hst)] at he
    cases hu : st.users[tx.borrowerId]? with
    | none =>
      simp only [hu] at he
      cases he
    | some u =>
      simp only [hu] at he
      rw [if_pos hty] at he
      simp only [hb] at he
      split at he
      · cases he
      · injection he with he1
        subst he1
        have hlt : tx.bookId < st.books.length := (List.getElem?_eq_some_iff.mp hb).1
        simpa using List.getElem?_set_self hlt
  · rw [if_pos hst] at he
    cases he

/-- A successful `reserveBook` leaves every book record unchanged. -/
theorem reserveBook_books_unchanged {st st1 : EngineState} {bid uid : Nat}
    {f t : String} (he : reserveBook st bid uid f t = .ok st1) :
    st1.books = st.books := by
  unfold reserveBook at he
  split at he
  · split at he
    · cases he
    · injection he with he1
      subst he1
      rfl
  · cases he

/-- A rethrown drop outcome makes `dropColl` fail. -/
theorem dropColl_error_of_rethrown {r : DropResult} (h : dropRethrown r)
    (coll : List α) : dropColl r coll = .error () := by
  obtain ⟨c, rfl, hne⟩ := h
  simp [dropColl, hne]

/-- `dropColl` succeeds only with the old collection (code 26) or the
empty one. -/
theorem dropColl_ok_shape {r : DropResult} {coll coll1 : List α}
    (h : dropColl r coll = .ok coll1) : coll1 = coll ∨ coll1 = [] := by
  cases r with
  | ok =>
    simp only [dropColl] at h
    injection h with h1
    exact Or.inr h1.symm
  | err c =>
    simp only [dropColl] at h
    by_cases hc : c = 26
    · rw [if_pos hc] at h
      injection h with h1
      exact Or.inl h1.symm
    · rw [if_neg hc] at h
      cases h

/-- A tolerated drop outcome empties the collection (success drops it;
code 26 means it was already nonexistent, i.e. empty). -/
theorem dropColl_tolerated {r : DropResult} {coll : List α}
    (h : dropTolerated r coll) : dropColl r coll = .ok [] := by
  rcases h with rfl | ⟨rfl, rfl⟩ <;> rfl

/-- When all four drops are tolerated, the drop phase reaches the empty
database: every pre-existing record is destroyed before any insert. -/
theorem dropPhase_tolerated {p : DropPlan} {db : Db}
    (h1 : dropTolerated p.booksDrop db.books)
    (h2 : dropTolerated p.categoriesDrop db.bookcategories)
    (h3 : dropTolerated p.transactionsDrop db.booktransactions)
    (h4 : dropTolerated p.usersDrop db.users) :
    dropPhase p db = .ok emptyDb := by
  obtain ⟨bs, cs, ts, us⟩ := db
  obtain ⟨r1, r2, r3, r4⟩ := p
  simp only [dropTolerated] at h1 h2 h3 h4
  rcases h1 with rfl | ⟨rfl, h1e⟩ <;> rcases h2 with rfl | ⟨rfl, h2e⟩ <;>
    rcases h3 with rfl | ⟨rfl, h3e⟩ <;> rcases h4 with rfl | ⟨rfl, h4e⟩ <;>
    subst_vars <;> simp [dropPhase, dropColl, emptyDb]

/-- When some drop is rethrown, the drop phase fails, leaving every
collection either untouched or dropped — nothing else. -/
theorem dropPhase_rethrown {p : DropPlan} {db : Db}
    (h : dropRethrown p.booksDrop ∨ dropRethrown p.categoriesDrop ∨
         dropRethrown p.transactionsDrop ∨ dropRethrown p.usersDrop) :
    ∃ d, dropPhase p db = .error d ∧
      (d.books = db.books ∨ d.books = []) ∧
      (d.bookcategories = db.bookcategories ∨ d.bookcategories = []) ∧
      (d.booktransactions = db.booktransactions ∨ d.booktransactions = []) ∧
      (d.users = db.users ∨ d.users = []) := by
  obtain ⟨bs, cs, ts, us⟩ := db
  obtain ⟨r1, r2, r3, r4⟩ := p
  cases hc1 : dropColl r1 bs with
  | error e =>
    exact ⟨⟨bs, cs, ts, us⟩, by simp [dropPhase, hc1],
      Or.inl rfl, Or.inl rfl, Or.inl rfl, Or.inl rfl⟩
  | ok bs1 =>
    cases hc2 : dropColl r2 cs with
    | error e =>
      exact ⟨⟨bs1, cs, ts, us⟩, by simp [dropPhase, hc1, hc2],
        dropColl_ok_shape hc1, Or.inl rfl, Or.inl rfl, Or.inl rfl⟩
    | ok cs1 =>
      cases hc3 : dropColl r3 ts with
      | error e =>
        exact ⟨⟨bs1, cs1, ts, us⟩, by simp [dropPhase, hc1, hc2, hc3],
          dropColl_ok_shape hc1, dropColl_ok_shape hc2, Or.inl rfl, Or.inl rfl⟩
      | ok ts1 =>
        cases hc4 : dropColl r4 us with
        | error e =>
          exact ⟨⟨bs1, cs1, ts1, us⟩, by simp [dropPhase, hc1, hc2, hc3, hc4],
            dropColl_ok_shape hc1, dropColl_ok_shape hc2, dropColl_ok_shape hc3, Or.inl rfl⟩
        | ok us1 =>
          exfalso
          rcases h with hbad | hbad | hbad | hbad
          · have hcon := dropColl_error_of_rethrown hbad bs
            rw [hc1] at hcon
            cases hcon
          · have hcon := dropColl_error_of_rethrown hbad cs
            rw [hc2] at hcon
            cases hcon
          · have hcon := dropColl_error_of_rethrown hbad ts
            rw [hc3] at hcon
            cases hcon
          · have hcon := dropColl_error_of_rethrown hbad us
            rw [hc4] at hcon
            cases hcon

/-- A rethrown drop aborts the whole run: the completion flag is false
and no collection holds anything but its old records or nothing. -/
theorem runSeed_abort {p : DropPlan} {db : Db}
    (h : dropRethrown p.booksDrop ∨ dropRethrown p.categoriesDrop ∨
         dropRethrown p.transactionsDrop ∨ dropRethrown p.usersDrop) :
    (runSeed p db).2 = false ∧
    ((runSeed p db).1.books = db.books ∨ (runSeed p db).1.books = []) ∧
    ((runSeed p db).1.bookcategories = db.bookcategories ∨ (runSeed p db).1.bookcategories = []) ∧
    ((runSeed p db).1.booktransactions = db.booktransactions ∨ (runSeed p db).1.booktransactions = []) ∧
    ((runSeed p db).1.users = db.users ∨ (runSeed p db).1.users = []) := by
  obtain ⟨d, hd, hsh⟩ := dropPhase_rethrown h
  have hrun : runSeed p db = (d, false) := by
    unfold runSeed
    rw [hd]
  rw [hrun]
  exact ⟨rfl, hsh⟩

/-! ## Claims -/

/-- C1: for every book, after every operation sequence including the
seeding run, `0 ≤ availableCopies ≤ totalCopies` holds: the seeded books
(with the spec's implicit `totalCopies` bound initialized to the seeded
count) satisfy the bounds, and every circulation-engine request sequence
preserves them. -/
theorem seed_and_engine_copy_bounds :
    booksInv seedEngineState ∧
    ∀ ops st, booksInv st → booksInv (applyOps ops st) :=
  ⟨by unfold booksInv; decide, fun ops st h => booksInv_applyOps ops st h⟩

/-- Witness for C1: the bounds hold after a concrete request sequence run
from the seeded state. -/
theorem seed_and_engine_copy_bounds_witness :
    booksInv (applyOps [EngineOp.issue 0 0 ("2024-03-01") ("2024-03-10"),
      EngineOp.ret 3 ("2024-03-05")] seedEngineState) :=
  seed_and_engine_copy_bounds.2 _ _ (by unfold booksInv; decide)

/-- C2: for every BookTransaction — the three the seeding script creates,
and any transaction in any state reached by engine requests — the
`returnDate` field is set iff the status is `Completed`. -/
theorem returnDate_iff_completed :
    (∀ tx ∈ seededDb.booktransactions,
        (tx.returnDate ≠ none ↔ tx.transactionStatus = "Completed")) ∧
    ∀ ops st, txInv st → txInv (applyOps ops st) :=
  ⟨by decide, fun ops st h => txInv_applyOps ops st h⟩

/-- Witness for C2 at the seeded Completed transaction and a concrete
request sequence. -/
theorem returnDate_iff_completed_witness :
    ((seedTx3.returnDate ≠ none) ↔ seedTx3.transactionStatus = "Completed") ∧
    txInv (applyOps [EngineOp.cancel 1] seedEngineState) :=
  ⟨returnDate_iff_completed.1 seedTx3 (by decide),
   returnDate_iff_completed.2 _ _ (by unfold txInv; decide)⟩

/-- C3 counterexample: `BookSchema` stores `bookStatus` as an independent
field defaulting to `"Available"`, so a book record built the way the
seed builds them but with `bookCountAvailable = 0` carries stored status
`"Available"` while the spec's derived status is `"Unavailable"` — the
stored field is not a pure function of the count and can drift. -/
theorem stored_status_can_drift :
    (schemaDefaultBook ("Ghost") ("A") 0).bookStatus = "Available" ∧
    derivedStatus (schemaDefaultBook ("Ghost") ("A") 0).bookCountAvailable = "Unavailable" ∧
    (schemaDefaultBook ("Ghost") ("A") 0).bookStatus ≠
      derivedStatus (schemaDefaultBook ("Ghost") ("A") 0).bookCountAvailable := by
  refine ⟨rfl, rfl, ?_⟩
  decide

/-- C3 amended: `bookStatus` is stored independently (schema default
`"Available"` regardless of count), but for every book the seeding run
creates — all with positive counts — the stored status does equal the
derived Available-iff-positive status. -/
theorem seeded_status_matches_derived :
    ∀ b ∈ seededDb.books, b.bookStatus = derivedStatus b.bookCountAvailable := by
  decide

/-- Witness for C3 amended at the first seeded book. -/
theorem seeded_status_matches_derived_witness :
    (seededDb.books.get ⟨0, by decide⟩).bookStatus =
      derivedStatus (seededDb.books.get ⟨0, by decide⟩).bookCountAvailable :=
  seeded_status_matches_derived _ (by decide)

/-- C4 counterexample: the seeding script itself creates an Active Issue
transaction (`seedTx1`, referencing book 0, The Lord of the Rings) while
leaving every book record — in particular its `bookCountAvailable` of 5 —
exactly as inserted: creating that Issue decremented nothing. -/
theorem seed_issue_without_decrement :
    seedTx1.transactionType = "Issue" ∧
    seedTx1.transactionStatus = "Active" ∧
    seedTx1.bookId = some 0 ∧
    (insertTxStep seedRunBeforeTx).books = seedRunBeforeTx.books ∧
    (insertTxStep seedRunBeforeTx).books.map (fun b => b.bookCountAvailable) = [5, 3, 2, 4, 1] ∧
    seedTx1 ∈ (insertTxStep seedRunBeforeTx).booktransactions := by
  refine ⟨rfl, rfl, by decide, rfl, by decide, by decide⟩

/-- C4 amended: in the spec-modelled Circulation Service, a successful
`issueBook` decrements the book's `availableCopies` by one, a successful
`returnBook` of an Issue increments it by one, and a successful
`reserveBook` changes no book record; the seeding script's transaction
insertion, by contrast, changes no book record at all. -/
theorem circulation_count_changes :
    (∀ st st1 : EngineState, ∀ bid uid : Nat, ∀ f t : String, ∀ b : LedgerBook,
        st.books[bid]? = some b → issueBook st bid uid f t = .ok st1 →
        st1.books[bid]? = some { b with availableCopies := b.availableCopies - 1 }) ∧
    (∀ st st1 : EngineState, ∀ txId : Nat, ∀ d : String, ∀ tx : LedgerTx, ∀ b : LedgerBook,
        st.transactions[txId]? = some tx → tx.transactionType = "Issue" →
        st.books[tx.bookId]? = some b → returnBook st txId d = .ok st1 →
        st1.books[tx.bookId]? = some { b with availableCopies := b.availableCopies + 1 }) ∧
    (∀ st st1 : EngineState, ∀ bid uid : Nat, ∀ f t : String,
        reserveBook st bid uid f t = .ok st1 → st1.books = st.books) ∧
    (∀ db : Db, (insertTxStep db).books = db.books) :=
  ⟨fun _ _ _ _ _ _ _ hb he => issueBook_decrements hb he,
   fun _ _ _ _ _ _ htx hty hb he => returnBook_increments htx hty hb he,
   fun _ _ _ _ _ _ he => reserveBook_books_unchanged he,
   fun _ => rfl⟩

/-- Witness for C4 amended: issuing book 0 from the seeded state takes
its count from 5 to 4, and the seed's transaction insertion leaves the
book records untouched. -/
theorem circulation_count_changes_witness :
    issuedState.books[0]? =
      some { bookName := "The Lord of the Rings", totalCopies := 5, availableCopies := 4 } ∧
    (insertTxStep seedRunBeforeTx).books = seedRunBeforeTx.books :=
  ⟨circulation_count_changes.1 seedEngineState issuedState 0 0 ("2024-03-01") ("2024-03-10")
      { bookName := "The Lord of the Rings", totalCopies := 5, availableCopies := 5 } rfl rfl,
   circulation_count_changes.2.2.2 seedRunBeforeTx⟩

/-- C5 counterexample: the seeding program does create BookTransaction
rows — three of them — and sets an explicit `Completed` status on one of
them, so it does not populate only Book, Category and User rows and does
set transaction statuses. -/
theorem seed_creates_transaction_rows :
    seededDb.booktransactions.length = 3 ∧
    seededDb.booktransactions.map (fun tx => tx.transactionType) =
      ["Issue", "Reservation", "Issue"] ∧
    seededDb.booktransactions.map (fun tx => tx.transactionStatus) =
      ["Active", "Active", "Completed"] :=
  ⟨rfl, rfl, rfl⟩

/-- C5 amended: the seeding program populates Book, Category, User AND
BookTransaction rows (three transactions, one with an explicit Completed
status); it performs no ledger mutation — its transaction insertion
changes no book, category or user record. -/
theorem seed_populates_all_four_collections :
    runSeed { booksDrop := .ok, categoriesDrop := .ok
            , transactionsDrop := .ok, usersDrop := .ok } emptyDb = (seededDb, true) ∧
    seededDb.bookcategories.length = 8 ∧
    seededDb.users.length = 3 ∧
    seededDb.books.length = 5 ∧
    seededDb.booktransactions = [seedTx1, seedTx2, seedTx3] ∧
    ∀ db : Db, (insertTxStep db).books = db.books ∧
      (insertTxStep db).bookcategories = db.bookcategories ∧
      (insertTxStep db).users = db.users :=
  ⟨rfl, rfl, rfl, rfl, rfl, fun _ => ⟨rfl, rfl, rfl⟩⟩

/-- Witness for C5 amended at the seeded database. -/
theorem seed_populates_all_four_collections_witness :
    (insertTxStep seededDb).books = seededDb.books :=
  (seed_populates_all_four_collections.2.2.2.2.2 seededDb).1

/-- C6: a write that violates a declared uniqueness constraint — a
duplicate user full name, a duplicate user email, or a duplicate category
name — fails with `Conflict`, for every store state. -/
theorem unique_writes_fail_with_conflict :
    (∀ us u, (∃ v ∈ us, v.userFullName = u.userFullName) →
        insertUser us u = .error .Conflict) ∧
    (∀ us u, (∃ v ∈ us, v.email = u.email) → insertUser us u = .error .Conflict) ∧
    (∀ cs c, (∃ d ∈ cs, d.categoryName = c.categoryName) →
        insertCategory cs c = .error .Conflict) := by
  refine ⟨fun us u h => ?_, fun us u h => ?_, fun cs c h => ?_⟩
  · obtain ⟨v, hv, he⟩ := h
    have hc : us.any (fun v2 => v2.userFullName == u.userFullName || v2.email == u.email) = true :=
      List.any_eq_true.mpr ⟨v, hv, by simp [he]⟩
    unfold insertUser
    rw [if_pos hc]
  · obtain ⟨v, hv, he⟩ := h
    have hc : us.any (fun v2 => v2.userFullName == u.userFullName || v2.email == u.email) = true :=
      List.any_eq_true.mpr ⟨v, hv, by simp [he]⟩
    unfold insertUser
    rw [if_pos hc]
  · obtain ⟨d0, hd, he⟩ := h
    have hc : cs.any (fun d2 => d2.categoryName == c.categoryName) = true :=
      List.any_eq_true.mpr ⟨d0, hd, by simp [he]⟩
    unfold insertCategory
    rw [if_pos hc]

/-- Witness for C6: re-inserting a seeded user full name or a seeded
category name fails with `Conflict`. -/
theorem unique_writes_fail_with_conflict_witness :
    insertUser storedUsers (mkStoredUser 3
      { userType := "Member", userFullName := "John Doe", email := "new@example.com"
      , password := "p", mobileNumber := "0" }) = .error .Conflict ∧
    insertCategory seedCats { categoryName := "Fiction" } = .error .Conflict :=
  ⟨unique_writes_fail_with_conflict.1 _ _ (by decide),
   unique_writes_fail_with_conflict.2.2 _ _ (by decide)⟩

/-- C7: issuing a book whose `availableCopies` is 0 fails with
`OutOfStock`, and — the operation being all-or-nothing — leaves the whole
state (books, transactions, users) unchanged. -/
theorem issue_out_of_stock_fails (st : EngineState) (bid uid : Nat) (f t : String)
    (b : LedgerBook) (hb : st.books[bid]? = some b) (h0 : b.availableCopies = 0)
    (hu : uid < st.users.length) :
    issueBook st bid uid f t = .error .OutOfStock ∧
    applyOp (.issue bid uid f t) st = st := by
  have hu2 : st.users[uid]? = some st.users[uid] := List.getElem?_eq_getElem hu
  have hfail : issueBook st bid uid f t = .error .OutOfStock := by
    unfold issueBook
    simp only [hb, hu2]
    rw [if_pos h0]
  exact ⟨hfail, by simp [applyOp, hfail]⟩

/-- Witness for C7 on a one-book, one-user state with no copy left. -/
theorem issue_out_of_stock_fails_witness :
    issueBook noCopyState 0 0 ("2024-01-01") ("2024-01-02") = .error .OutOfStock ∧
    applyOp (.issue 0 0 ("2024-01-01") ("2024-01-02")) noCopyState = noCopyState :=
  issue_out_of_stock_fails noCopyState 0 0 _ _
    { bookName := "X", totalCopies := 1, availableCopies := 0 } rfl rfl (by decide)

/-- C8: every transaction the seeding script creates carries exactly the
`bookName` of the book its `bookId` references and the `userFullName` of
the user its `borrowerId` references, as they are at creation time
(nothing in the run mutates them afterwards). -/
theorem snapshot_names_match : snapshotsConsistent = true := by decide

/-- C9: a seeding run drops the books, bookcategories, booktransactions
and users collections before inserting anything; a tolerated outcome per
drop (success, or code 26 on a nonexistent — hence empty — collection)
leads to exactly the seeded data, destroying every pre-existing record;
any drop error with a code other than 26 aborts the run with nothing
inserted. -/
theorem drops_precede_inserts :
    (∀ (db : Db) (p : DropPlan),
        dropTolerated p.booksDrop db.books →
        dropTolerated p.categoriesDrop db.bookcategories →
        dropTolerated p.transactionsDrop db.booktransactions →
        dropTolerated p.usersDrop db.users →
        runSeed p db = (seededDb, true)) ∧
    (∀ (db : Db) (p : DropPlan),
        (dropRethrown p.booksDrop ∨ dropRethrown p.categoriesDrop ∨
         dropRethrown p.transactionsDrop ∨ dropRethrown p.usersDrop) →
        (runSeed p db).2 = false ∧
        ((runSeed p db).1.books = db.books ∨ (runSeed p db).1.books = []) ∧
        ((runSeed p db).1.bookcategories = db.bookcategories ∨
          (runSeed p db).1.bookcategories = []) ∧
        ((runSeed p db).1.booktransactions = db.booktransactions ∨
          (runSeed p db).1.booktransactions = []) ∧
        ((runSeed p db).1.users = db.users ∨ (runSeed p db).1.users = [])) := by
  constructor
  · intro db p h1 h2 h3 h4
    have hd := dropPhase_tolerated h1 h2 h3 h4
    unfold runSeed
    rw [hd]
    rfl
  · intro db p h
    exact runSeed_abort h

/-- Witness for C9: a run over a store holding one stale book (and a
code-26 outcome on the missing transaction collection) ends in exactly
the seeded data; a code-5 drop failure aborts the run. -/
theorem drops_precede_inserts_witness :
    runSeed { booksDrop := .ok, categoriesDrop := .ok
            , transactionsDrop := .err 26, usersDrop := .ok }
      { books := [schemaDefaultBook ("Old") ("B") 7]
      , bookcategories := [], booktransactions := [], users := [] } = (seededDb, true) ∧
    (runSeed { booksDrop := .err 5, categoriesDrop := .ok
             , transactionsDrop := .ok, usersDrop := .ok } seededDb).2 = false :=
  ⟨drops_precede_inserts.1 _ _ (Or.inl rfl) (Or.inl rfl) (Or.inr ⟨rfl, rfl⟩) (Or.inl rfl),
   (drops_precede_inserts.2 seededDb _ (Or.inl ⟨5, rfl, by decide⟩)).1⟩

/-- C10: every stored seed user's password is the bcrypt hash of the seed
plaintext, made with a fresh salt per user at 10 rounds; no stored
password is a plaintext value. -/
theorem seeded_passwords_bcrypt_hashed :
    storedUsers.map (fun u => u.password) =
      [ hashPassword 0 ("password123"), hashPassword 1 ("password456")
      , hashPassword 2 ("adminPassword") ] ∧
    (storedUsers.map (fun u => u.password)).all
      (fun p => match p with
        | .plain _ => false
        | .bcryptHashed rounds _ _ => rounds == 10) = true ∧
    (storedUsers.map (fun u => match u.password with
        | .plain _ => 0
        | .bcryptHashed _ salt _ => salt)).Nodup :=
  ⟨rfl, rfl, by decide⟩
